import Mathlib

/-!
Verification of the kubegateway request-dispatch core against its
natural-language specification.  Go source functions are shallowly
embedded as Lean definitions: finite Go maps become association lists,
Go byte slices become strings, results of I/O (a health probe, the base
TLS-config callback) become explicit inputs, and `(value, ok)` returns
become `Option` or pairs.  Definitions marked `Modelled from the spec:`
stand for repository code that is not part of the provided sources
(only their tests or callers are) and follow the specification's words.
-/

/-! ## Command-line options (`UpstreamClusterOptions`) -/

/-- Embeds `UpstreamClusterOptions` from the options file: a single
`Path` field bound to the `--upstream-cluster-file` flag. -/
structure UpstreamClusterOptions where
  Path : String
  deriving DecidableEq

/-- Embeds `UpstreamClusterOptions.Validate`: appends one configuration
error when `len(s.Path) == 0`, else returns the empty error list. -/
def UpstreamClusterOptions.validate (s : UpstreamClusterOptions) : List String :=
  if s.Path = "" then ["--upstream-cluster-file must be set"] else []

/-! ## Log-mode combination (`isLogEnabled`) -/

/-- LogMode mirrors `proxyv1alpha1.LogMode`, a string type. -/
abbrev LogMode := String

/-- Modelled from the spec: the `LogOn` constant of `proxyv1alpha1`. -/
def LogOn : LogMode := "on"

/-- Modelled from the spec: the `LogOff` constant of `proxyv1alpha1`. -/
def LogOff : LogMode := "off"

/-- Modelled from the spec: `isLogEnabled` (package `clusters`), whose
definition is absent from the provided sources; only its test table is
given.  Access logging is enabled unless either the upstream or the
policy log mode turns it off, and some mode turns it on explicitly. -/
def isLogEnabled (upstream policy : LogMode) : Bool :=
  if upstream == LogOff || policy == LogOff then false
  else upstream == LogOn || policy == LogOn

/-! ## Proxy HTTP error-log writer -/

/-- The noisy log prefix filtered by `proxyHTTPErrorLogWriter.Write`. -/
def tlsHandshakeErrorPrefix : String := "http: TLS handshake error from"

/-- Byte-level prefix test, embedding `bytes.HasPrefix` on the model
where byte slices are lists of characters. -/
def hasPrefixChars : List Char → List Char → Bool
  | [], _ => true
  | _ :: _, [] => false
  | a :: as, b :: bs => decide (a = b) && hasPrefixChars as bs

/-- Result of a `Write` call: bytes reported written, the returned
error, and whether the message reached the log sink. -/
structure WriteResult where
  n : Nat
  err : Option String
  logged : Bool
  deriving DecidableEq

/-- Embeds `proxyHTTPErrorLogWriter.Write`: discard messages starting
with the TLS-handshake prefix returning `(0, nil)`, otherwise log the
message and return `(len(data), nil)`. -/
def proxyHTTPErrorLogWriterWrite (data : String) : WriteResult :=
  if hasPrefixChars tlsHandshakeErrorPrefix.toList data.toList then
    { n := 0, err := none, logged := false }
  else
    { n := data.length, err := none, logged := true }

/-! ## Endpoints and the gateway health check -/

/-- Embeds `clusters.EndpointInfo`: endpoint URL, cluster name
back-reference, and the atomically updated status triple written by
`UpdateStatus(ready, reason, message)`. -/
structure EndpointInfo where
  cluster : String
  endpoint : String
  ready : Bool
  reason : String
  message : String
  deriving DecidableEq

/-- Embeds `EndpointInfo.UpdateStatus`: store the new readiness flag,
reason and message. -/
def EndpointInfo.updateStatus (e : EndpointInfo) (ready : Bool)
    (reason message : String) : EndpointInfo :=
  { e with ready := ready, reason := reason, message := message }

/-- Outcome of the probe's `GET /readyz` round trip, the input that the
Go code reads from `result.Error()` and `result.StatusCode`.  The error
cases are disjoint in Go: `os.IsTimeout` is checked first, and typed
API-status errors do not implement the timeout interface. -/
inductive ProbeOutcome where
  | success (statusCode : Nat)
  | timeoutErr (msg : String)
  | apiStatusErr (reason : String) (message : String)
  | otherErr (msg : String)

/-- Embeds `GatewayHealthCheck` (package `controllers`): classify the
probe outcome, update the endpoint status, and return `done = false`. -/
def gatewayHealthCheck (e : EndpointInfo) (outcome : ProbeOutcome) :
    EndpointInfo × Bool :=
  match outcome with
  | .timeoutErr msg => (e.updateStatus false "Timeout" msg, false)
  | .apiStatusErr reason message => (e.updateStatus false reason message, false)
  | .otherErr msg => (e.updateStatus false "Failure" msg, false)
  | .success statusCode =>
    if statusCode = 200 then (e.updateStatus true "" "", false)
    else
      (e.updateStatus false "NotReady"
        ("request " ++ e.endpoint ++ "/readyz, got response code is " ++
          toString statusCode), false)

/-! ## TLS data model -/

/-- Embeds `tls.ClientAuthType`; the Go zero value is `noClientCert`. -/
inductive ClientAuthType where
  | noClientCert
  | requestClientCert
  | requireAnyClientCert
  | verifyClientCertIfGiven
  | requireAndVerifyClientCert
  deriving DecidableEq

/-- A serving certificate, abstracting `tls.Certificate` by the PEM key
and certificate data it was parsed from. -/
structure Cert where
  key : String
  crt : String
  deriving DecidableEq

/-- Embeds the fields of `tls.Config` that the handshake callback reads
and writes.  `clientCAs` abstracts the x509 pool by the PEM data it was
built from; `getCertificate` and `getConfigForClient` record whether the
corresponding callback is set (non-nil). -/
structure TLSConfig where
  certificates : List Cert
  clientCAs : Option String
  clientAuth : ClientAuthType
  getCertificate : Bool
  getConfigForClient : Bool
  minVersion : Nat
  deriving DecidableEq

/-- Embeds `x509.VerifyOptions`, abstracted by the PEM data of its root
pool; the Go zero value is `{ roots := "" }`. -/
structure VerifyOptions where
  roots : String
  deriving DecidableEq

/-- The zero `x509.VerifyOptions` returned on a registry miss. -/
def emptyVerifyOptions : VerifyOptions := { roots := "" }

/-- Embeds `proxyv1alpha1.SecureServing`: PEM server key, server
certificate and client CA data; empty strings are empty byte slices. -/
structure SecureServing where
  keyData : String
  certData : String
  clientCAData : String
  deriving DecidableEq

/-- Embeds `proxyv1alpha1.UpstreamClusterServer`: endpoint URL and the
optional disabled flag. -/
structure UpstreamClusterServer where
  endpoint : String
  disabled : Bool
  deriving DecidableEq

/-! ## Flow control -/

/-- Embeds `proxyv1alpha1.FlowControlSchemaConfiguration`: exactly one
of exempt, max-requests-inflight, or token bucket. -/
inductive FlowControlSchemaConfiguration where
  | exempt
  | maxRequestsInflight (max : Nat)
  | tokenBucket (qps : Nat) (burst : Nat)
  deriving DecidableEq

/-- Embeds `proxyv1alpha1.FlowControlSchema`: a named configuration. -/
structure FlowControlSchema where
  name : String
  config : FlowControlSchemaConfiguration
  deriving DecidableEq

/-- Modelled from the spec: one named flow limiter of the Flow
Controller (`flowcontrol.FlowControl`, absent from the provided
sources).  `id` captures object identity across reconfigurations,
`config` the current parameters, and `inflight` the outstanding
permits. -/
structure FlowLimiter where
  id : Nat
  config : FlowControlSchemaConfiguration
  inflight : Nat
  deriving DecidableEq

/-- Modelled from the spec: the per-cluster `schemaName → FlowLimiter`
map, the retired limiters still draining, and a counter supplying fresh
limiter identities. -/
structure FlowControlState where
  limiters : List (String × FlowLimiter)
  retired : List FlowLimiter
  nextId : Nat
  deriving DecidableEq

/-- The flow-control state of a freshly created ClusterInfo. -/
def emptyFlowControlState : FlowControlState :=
  { limiters := [], retired := [], nextId := 0 }

/-- Lookup in an association list keyed by schema name or endpoint
URL, embedding a Go map read. -/
def lookupBy {α : Type} (l : List (String × α)) (n : String) : Option α :=
  (l.find? fun p => p.1 = n).map fun p => p.2

/-- Modelled from the spec: the limiter-map rebuild inside
`Sync(oldSchemas, newSchemas)`.  Walks the new schema list: a name
already present keeps its limiter resized in place (same `id`, same
outstanding permits, new parameters); a new name receives a freshly
created limiter with no outstanding permits.  Returns the new map and
the advanced identity counter. -/
def syncLimiters (old : List (String × FlowLimiter)) (nid : Nat) :
    List FlowControlSchema → List (String × FlowLimiter) × Nat
  | [] => ([], nid)
  | s :: rest =>
    match lookupBy old s.name with
    | some l =>
      let r := syncLimiters old nid rest
      ((s.name, { l with config := s.config }) :: r.1, r.2)
    | none =>
      let r := syncLimiters old (nid + 1) rest
      ((s.name, { id := nid, config := s.config, inflight := 0 }) :: r.1, r.2)

/-- Modelled from the spec: `Sync(oldSchemas, newSchemas)` of the Flow
Controller, diffing the current limiter map against the new schema
list.  Names in `new ∖ old` get a created limiter; names in
`new ∩ old` are resized in place; limiters of names in `old ∖ new` are
dropped at once when no permits are outstanding, and otherwise marked
retired until their outstanding permits fall to zero. -/
def syncFlowControl (st : FlowControlState)
    (newSchemas : List FlowControlSchema) : FlowControlState :=
  let r := syncLimiters st.limiters st.nextId newSchemas
  let removed := st.limiters.filter fun p =>
    newSchemas.all fun s => s.name ≠ p.1
  { limiters := r.1
    retired := st.retired ++ (removed.map fun p => p.2).filter fun l => l.inflight ≠ 0
    nextId := r.2 }

/-! ## ClusterInfo -/

/-- Embeds `clusters.ClusterInfo`: immutable name, the currently active
TLS serving config and verify options (each `none` when unloaded), the
`endpointURL → EndpointInfo` map, and the flow-control state. -/
structure ClusterInfo where
  name : String
  tlsConfig : Option TLSConfig
  verifyOptions : Option VerifyOptions
  endpoints : List (String × EndpointInfo)
  flowcontrol : FlowControlState
  deriving DecidableEq

/-- Embeds `ClusterInfo.LoadTLSConfig`: the stored config with its ok
flag folded into the `Option`. -/
def ClusterInfo.loadTLSConfig (c : ClusterInfo) : Option TLSConfig :=
  c.tlsConfig

/-- Embeds `ClusterInfo.LoadVerifyOptions`: `(options, ok)`, the zero
options with `false` when nothing is stored. -/
def ClusterInfo.loadVerifyOptions (c : ClusterInfo) : VerifyOptions × Bool :=
  match c.verifyOptions with
  | some v => (v, true)
  | none => (emptyVerifyOptions, false)

/-- Embeds `ClusterInfo.AllEndpoints`: the endpoint URLs of the map. -/
def ClusterInfo.allEndpoints (c : ClusterInfo) : List String :=
  c.endpoints.map fun p => p.1

/-- An EndpointInfo as created during `syncEndpoints`: not yet probed,
carrying its cluster back-reference. -/
def newEndpointInfo (cluster url : String) : EndpointInfo :=
  { cluster := cluster, endpoint := url, ready := false, reason := "", message := "" }

/-- The EndpointInfo kept (when the URL is already present) or created
(when it is new) for one desired URL during `syncEndpoints`. -/
def endpointFor (c : ClusterInfo) (url : String) : EndpointInfo :=
  match lookupBy c.endpoints url with
  | some e => e
  | none => newEndpointInfo c.name url

/-- Modelled from the spec: `ClusterInfo.syncEndpoints(servers)` (absent
from the provided sources; its test is given).  The endpoint map is
rebuilt to mirror the non-disabled server URLs: newly listed URLs get a
created EndpointInfo, URLs already present keep theirs, and URLs absent
from the list are removed. -/
def ClusterInfo.syncEndpoints (c : ClusterInfo)
    (servers : List UpstreamClusterServer) : ClusterInfo :=
  let desired := (servers.filter fun s => !s.disabled).map fun s => s.endpoint
  { c with endpoints := desired.map fun u => (u, endpointFor c u) }

/-- Modelled from the spec: `ClusterInfo.syncSecureServingConfigLocked`
(absent from the provided sources; its test is given).  Empty inputs
store a nil TLS config and nil verify options; otherwise the PEM server
key/cert become the certificate list, and the PEM client CA becomes the
client-CA pool and the verify options; all published atomically. -/
def ClusterInfo.syncSecureServingConfigLocked (c : ClusterInfo)
    (ss : SecureServing) : ClusterInfo :=
  if ss.keyData = "" ∧ ss.certData = "" ∧ ss.clientCAData = "" then
    { c with tlsConfig := none, verifyOptions := none }
  else
    let certificates : List Cert :=
      if ss.keyData ≠ "" ∧ ss.certData ≠ "" then [{ key := ss.keyData, crt := ss.certData }]
      else []
    let clientCAs : Option String :=
      if ss.clientCAData ≠ "" then some ss.clientCAData else none
    { c with
      tlsConfig := some
        { certificates := certificates
          clientCAs := clientCAs
          clientAuth := ClientAuthType.noClientCert
          getCertificate := false
          getConfigForClient := false
          minVersion := 0 }
      verifyOptions := clientCAs.map fun d => { roots := d } }

/-- Embeds `ClusterInfo.syncFlowControlLocked`, which delegates the
diff of the current limiters against the new schema list to the Flow
Controller's `Sync`. -/
def ClusterInfo.syncFlowControlLocked (c : ClusterInfo)
    (schemas : List FlowControlSchema) : ClusterInfo :=
  { c with flowcontrol := syncFlowControl c.flowcontrol schemas }

/-! ## Registry and the TLS/SNI handshake callback -/

/-- Modelled from the spec: `clusters.Manager.Get`, a single map read
keyed by the (already normalized) SNI hostname. -/
def lookupCluster (reg : List (String × ClusterInfo)) (host : String) :
    Option ClusterInfo :=
  lookupBy reg host

/-- Splits a character list at its unique colon, embedding the
behaviour of Go's `net.SplitHostPort` on ordinary `host:port` strings:
no colon ("missing port") and several colons ("too many colons") are
errors. -/
def splitAtColon : List Char → Option (List Char × List Char)
  | [] => none
  | c :: rest =>
    if c = ':' then
      if ':' ∈ rest then none else some ([], rest)
    else
      match splitAtColon rest with
      | some hp => some (c :: hp.1, hp.2)
      | none => none

/-- Embeds Go's `net.SplitHostPort` for unbracketed addresses. -/
def splitHostPort (s : String) : Option (String × String) :=
  match splitAtColon s.toList with
  | some hp => some (String.mk hp.1, String.mk hp.2)
  | none => none

/-- Modelled from the spec: `gatewaynet.HostWithoutPort` (absent from
the provided sources), stripping any `:port` suffix and returning the
input unchanged when it carries none. -/
def hostWithoutPort (host : String) : String :=
  match splitHostPort host with
  | some hp => hp.1
  | none => host

/-- The inputs of one `GetConfigForClient` invocation:
`ClientHello.ServerName` and the local connection address string
`clientHello.Conn.LocalAddr().String()`. -/
structure ClientHelloInfo where
  serverName : String
  localAddr : String
  deriving DecidableEq

/-- Embeds `UpstreamClusterManager.WrapGetConfigForClient`: the wrapped
callback around the base `GetConfigForClientFunc`, whose outcome on this
handshake is the explicit `baseResult` input.  On success, the SNI
hostname (or, when empty, the host of the local address) selects a
cluster; on any miss the base config is returned with a nil error; on a
hit with a loaded TLS config, a clone of the base config is returned
with the cluster's client-CA pool (requesting, not requiring, a client
certificate) and its certificates overlaid. -/
def wrapGetConfigForClient (reg : List (String × ClusterInfo))
    (baseResult : Except String TLSConfig) (clientHello : ClientHelloInfo) :
    Except String TLSConfig :=
  match baseResult with
  | Except.error e => Except.error e
  | Except.ok baseTLSConfig =>
    let hostnameFound : Option String :=
      if clientHello.serverName ≠ "" then some clientHello.serverName
      else
        match splitHostPort clientHello.localAddr with
        | some hp => some hp.1
        | none => none
    match hostnameFound with
    | none => Except.ok baseTLSConfig
    | some hostname =>
      match lookupCluster reg hostname with
      | none => Except.ok baseTLSConfig
      | some cluster =>
        match cluster.loadTLSConfig with
        | none => Except.ok baseTLSConfig
        | some tlsConfig =>
          let tlsConfigCopy := baseTLSConfig
          let tlsConfigCopy :=
            if tlsConfig.clientCAs.isSome then
              { tlsConfigCopy with
                clientAuth := ClientAuthType.requestClientCert
                clientCAs := tlsConfig.clientCAs }
            else tlsConfigCopy
          let tlsConfigCopy :=
            if tlsConfig.certificates.length > 0 then
              { tlsConfigCopy with
                certificates := tlsConfig.certificates
                getCertificate := false
                getConfigForClient := false }
            else tlsConfigCopy
          Except.ok tlsConfigCopy

/-- Embeds `UpstreamClusterManager.SNIVerifyOptions`: strip the port
from the host, look up the cluster, and return the zero verify options
with `false` on a miss, or the cluster's loaded verify options. -/
def sniVerifyOptionsFor (reg : List (String × ClusterInfo)) (host : String) :
    VerifyOptions × Bool :=
  let hostname := hostWithoutPort host
  match lookupCluster reg hostname with
  | none => (emptyVerifyOptions, false)
  | some cluster => cluster.loadVerifyOptions

/-! ## Theorems -/

/-- C8: `UpstreamClusterOptions.Validate()` returns a non-empty error
list iff the upstream-cluster-file path is empty; an unset flag yields
exactly the configuration error, and any non-empty path validates with
no errors. -/
theorem upstreamClusterOptions_validate_spec (s : UpstreamClusterOptions) :
    (s.validate ≠ [] ↔ s.Path = "") ∧
    (s.Path = "" → s.validate = ["--upstream-cluster-file must be set"]) ∧
    (s.Path ≠ "" → s.validate = []) := by
  by_cases h : s.Path = "" <;>
    simp [UpstreamClusterOptions.validate, h]

/-- Witness for C8: the unset flag produces exactly the configuration
error, and a concrete non-empty path validates cleanly. -/
theorem upstreamClusterOptions_validate_witness :
    UpstreamClusterOptions.validate ⟨""⟩ = ["--upstream-cluster-file must be set"] ∧
    UpstreamClusterOptions.validate ⟨"/etc/kubegateway/cluster.yaml"⟩ = [] :=
  ⟨(upstreamClusterOptions_validate_spec ⟨""⟩).2.1 rfl,
   (upstreamClusterOptions_validate_spec ⟨"/etc/kubegateway/cluster.yaml"⟩).2.2 (by decide)⟩

/-- C9: `isLogEnabled(upstream, policy)` is true iff neither argument is
`LogOff` and at least one argument is `LogOn`; in particular it is false
when both arguments are empty.  The conjuncts replay the rows of the
`Test_isLogEnabled` table from the sources. -/
theorem isLogEnabled_spec (upstream policy : LogMode) :
    (isLogEnabled upstream policy =
      (!(upstream == LogOff) && !(policy == LogOff) &&
        ((upstream == LogOn) || (policy == LogOn)))) ∧
    isLogEnabled LogOff LogOn = false ∧
    isLogEnabled LogOn LogOff = false ∧
    isLogEnabled "" "" = false ∧
    isLogEnabled LogOn "" = true ∧
    isLogEnabled "" LogOn = true := by
  refine ⟨?_, by decide, by decide, by decide, by decide, by decide⟩
  by_cases h1 : upstream == LogOff <;> by_cases h2 : policy == LogOff <;>
    simp [isLogEnabled, h1, h2]

/-- C10: the proxy's HTTP error-log writer never returns an error;
messages beginning with "http: TLS handshake error from" are silently
discarded with `(0, nil)`, all other messages are logged and reported
fully written with `(len(data), nil)`. -/
theorem proxyHTTPErrorLogWriterWrite_spec (data : String) :
    (proxyHTTPErrorLogWriterWrite data).err = none ∧
    (hasPrefixChars tlsHandshakeErrorPrefix.toList data.toList = true →
      proxyHTTPErrorLogWriterWrite data = { n := 0, err := none, logged := false }) ∧
    (hasPrefixChars tlsHandshakeErrorPrefix.toList data.toList = false →
      proxyHTTPErrorLogWriterWrite data =
        { n := data.length, err := none, logged := true }) := by
  refine ⟨?_, fun h => ?_, fun h => ?_⟩ <;> unfold proxyHTTPErrorLogWriterWrite
  · split <;> rfl
  · rw [h]; simp
  · rw [h]; simp

/-- Witness for C10: a concrete TLS-handshake error message is dropped,
and a concrete other message is logged with its full length reported. -/
theorem proxyHTTPErrorLogWriterWrite_witness :
    proxyHTTPErrorLogWriterWrite "http: TLS handshake error from 127.0.0.1: EOF" =
      { n := 0, err := none, logged := false } ∧
    proxyHTTPErrorLogWriterWrite "http: panic serving" =
      { n := "http: panic serving".length, err := none, logged := true } :=
  ⟨(proxyHTTPErrorLogWriterWrite_spec "http: TLS handshake error from 127.0.0.1: EOF").2.1
      (by decide),
   (proxyHTTPErrorLogWriterWrite_spec "http: panic serving").2.2 (by decide)⟩

/-- C2: the health probe marks the endpoint ready with empty reason and
message on HTTP 200; not ready with reason "Timeout" on a timeout
error; not ready carrying the typed API status's reason and message; not
ready with reason "Failure" on any other error; and not ready with
reason "NotReady" and a message listing the response status code on a
non-200 response. -/
theorem gatewayHealthCheck_spec (e : EndpointInfo) (statusCode : Nat)
    (reason message : String) :
    ((gatewayHealthCheck e (.success 200)).1.ready = true ∧
      (gatewayHealthCheck e (.success 200)).1.reason = "" ∧
      (gatewayHealthCheck e (.success 200)).1.message = "") ∧
    ((gatewayHealthCheck e (.timeoutErr message)).1.ready = false ∧
      (gatewayHealthCheck e (.timeoutErr message)).1.reason = "Timeout" ∧
      (gatewayHealthCheck e (.timeoutErr message)).1.message = message) ∧
    ((gatewayHealthCheck e (.apiStatusErr reason message)).1.ready = false ∧
      (gatewayHealthCheck e (.apiStatusErr reason message)).1.reason = reason ∧
      (gatewayHealthCheck e (.apiStatusErr reason message)).1.message = message) ∧
    ((gatewayHealthCheck e (.otherErr message)).1.ready = false ∧
      (gatewayHealthCheck e (.otherErr message)).1.reason = "Failure" ∧
      (gatewayHealthCheck e (.otherErr message)).1.message = message) ∧
    (statusCode ≠ 200 →
      (gatewayHealthCheck e (.success statusCode)).1.ready = false ∧
      (gatewayHealthCheck e (.success statusCode)).1.reason = "NotReady" ∧
      (gatewayHealthCheck e (.success statusCode)).1.message =
        "request " ++ e.endpoint ++ "/readyz, got response code is " ++
          toString statusCode) := by
  refine ⟨by simp [gatewayHealthCheck, EndpointInfo.updateStatus],
    by simp [gatewayHealthCheck, EndpointInfo.updateStatus],
    by simp [gatewayHealthCheck, EndpointInfo.updateStatus],
    by simp [gatewayHealthCheck, EndpointInfo.updateStatus],
    fun h => by simp [gatewayHealthCheck, EndpointInfo.updateStatus, h]⟩

/-- Witness for C2: a concrete endpoint probed with response code 500 is
marked not ready with reason "NotReady" and a message naming code 500. -/
theorem gatewayHealthCheck_witness :
    (gatewayHealthCheck ⟨"testing.cluster", "https://127.0.0.1:443", true, "", ""⟩
        (.success 500)).1.ready = false ∧
    (gatewayHealthCheck ⟨"testing.cluster", "https://127.0.0.1:443", true, "", ""⟩
        (.success 500)).1.reason = "NotReady" ∧
    (gatewayHealthCheck ⟨"testing.cluster", "https://127.0.0.1:443", true, "", ""⟩
        (.success 500)).1.message =
      "request " ++ "https://127.0.0.1:443" ++ "/readyz, got response code is " ++
        toString 500 :=
  (gatewayHealthCheck_spec ⟨"testing.cluster", "https://127.0.0.1:443", true, "", ""⟩
      500 "r" "m").2.2.2.2 (by decide)

/-- C6: after syncing a cluster's secure serving from a SecureServing
value whose key, certificate and client-CA data are all empty,
`LoadTLSConfig()` is not ok (nil config) and `LoadVerifyOptions()` is
not ok (zero options). -/
theorem syncSecureServing_empty_spec (c : ClusterInfo) :
    (c.syncSecureServingConfigLocked ⟨"", "", ""⟩).loadTLSConfig = none ∧
    (c.syncSecureServingConfigLocked ⟨"", "", ""⟩).loadVerifyOptions =
      (emptyVerifyOptions, false) := by
  simp [ClusterInfo.syncSecureServingConfigLocked, ClusterInfo.loadTLSConfig,
    ClusterInfo.loadVerifyOptions]

/-- C4: after `syncEndpoints(servers)`, `AllEndpoints()` lists exactly
the non-disabled server URLs: it equals their list literally, and a URL
is present iff some non-disabled server carries it, so stale entries are
gone. -/
theorem syncEndpoints_mirror_spec (c : ClusterInfo)
    (servers : List UpstreamClusterServer) (url : String) :
    (c.syncEndpoints servers).allEndpoints =
      (servers.filter fun s => !s.disabled).map (fun s => s.endpoint) ∧
    (url ∈ (c.syncEndpoints servers).allEndpoints ↔
      ∃ s, s ∈ servers ∧ s.disabled = false ∧ s.endpoint = url) := by
  constructor
  · simp [ClusterInfo.syncEndpoints, ClusterInfo.allEndpoints, List.map_map,
      Function.comp]
  · simp [ClusterInfo.syncEndpoints, ClusterInfo.allEndpoints, List.map_map,
      Function.comp, List.mem_map, List.mem_filter]
    constructor
    · rintro ⟨s, ⟨hs, hd⟩, he⟩
      exact ⟨s, hs, by simpa using hd, he⟩
    · rintro ⟨s, hs, hd, he⟩
      exact ⟨s, ⟨hs, by simpa using hd⟩, he⟩

/-- Splitting a colon-free character list fails with a missing-port
error, as in Go's `net.SplitHostPort`. -/
theorem splitAtColon_of_not_mem :
    ∀ cs : List Char, ':' ∉ cs → splitAtColon cs = none
  | [], _ => rfl
  | a :: rest, h => by
    have h1 : ¬ a = ':' := fun e => h (by simp [e])
    have h2 : ':' ∉ rest := fun m => h (List.mem_cons_of_mem _ m)
    unfold splitAtColon
    simp [h1, splitAtColon_of_not_mem rest h2]

/-- Splitting `host ++ ":" ++ port` recovers host and port when neither
part contains a colon. -/
theorem splitAtColon_append (hl pl : List Char) (hh : ':' ∉ hl) (hp : ':' ∉ pl) :
    splitAtColon (hl ++ ':' :: pl) = some (hl, pl) := by
  induction hl with
  | nil =>
    unfold splitAtColon
    simp [hp]
  | cons a rest ih =>
    have h1 : ¬ a = ':' := fun e => hh (by simp [e])
    have h2 : ':' ∉ rest := fun m => hh (List.mem_cons_of_mem _ m)
    unfold splitAtColon
    simp [h1, ih h2]

/-- Character data of the concatenation `h ++ ":" ++ p`. -/
theorem toList_append_colon (h p : String) :
    (h ++ ":" ++ p).toList = h.toList ++ ':' :: p.toList := by
  simp [String.toList, String.data_append]

/-- A colon-free hostname with a `:port` suffix splits into the
hostname and the port. -/
theorem splitHostPort_append (h p : String)
    (hh : ':' ∉ h.toList) (hp : ':' ∉ p.toList) :
    splitHostPort (h ++ ":" ++ p) = some (h, p) := by
  unfold splitHostPort
  rw [toList_append_colon, splitAtColon_append h.toList p.toList hh hp]
  cases h with
  | mk hd =>
    cases p with
    | mk pd => rfl

/-- A colon-free host string fails to split, so `hostWithoutPort`
returns it unchanged. -/
theorem hostWithoutPort_no_colon (h : String) (hh : ':' ∉ h.toList) :
    hostWithoutPort h = h := by
  unfold hostWithoutPort splitHostPort
  rw [splitAtColon_of_not_mem h.toList hh]

/-- Stripping the `:port` suffix from a colon-free hostname. -/
theorem hostWithoutPort_strip (h p : String)
    (hh : ':' ∉ h.toList) (hp : ':' ∉ p.toList) :
    hostWithoutPort (h ++ ":" ++ p) = h := by
  unfold hostWithoutPort
  rw [splitHostPort_append h p hh hp]

/-- C7: `SNIVerifyOptions` looks the cluster up under the hostname with
any `:port` suffix stripped; a miss yields the zero verify options and
`false`, and a hit yields the cluster's loaded verify options. -/
theorem sniVerifyOptions_spec (reg : List (String × ClusterInfo))
    (h p : String) (hh : ':' ∉ h.toList) (hp : ':' ∉ p.toList) :
    sniVerifyOptionsFor reg (h ++ ":" ++ p) = sniVerifyOptionsFor reg h ∧
    (lookupCluster reg h = none →
      sniVerifyOptionsFor reg h = (emptyVerifyOptions, false)) ∧
    (∀ c, lookupCluster reg h = some c →
      sniVerifyOptionsFor reg h = c.loadVerifyOptions) := by
  refine ⟨?_, fun hm => ?_, fun c hc => ?_⟩ <;>
    unfold sniVerifyOptionsFor
  · rw [hostWithoutPort_strip h p hh hp, hostWithoutPort_no_colon h hh]
  · simp [hostWithoutPort_no_colon h hh, hm]
  · simp [hostWithoutPort_no_colon h hh, hc]

/-- Witness for C7: a registry holding `a.example` serves its loaded
verify options for `"a.example:443"`, and misses on an unknown host. -/
theorem sniVerifyOptions_witness :
    sniVerifyOptionsFor
        [("a.example", ⟨"a.example", none, some ⟨"ca-pem"⟩, [], emptyFlowControlState⟩)]
        ("a.example" ++ ":" ++ "443") =
      sniVerifyOptionsFor
        [("a.example", ⟨"a.example", none, some ⟨"ca-pem"⟩, [], emptyFlowControlState⟩)]
        "a.example" ∧
    sniVerifyOptionsFor [] "b.example" = (emptyVerifyOptions, false) :=
  ⟨(sniVerifyOptions_spec
      [("a.example", ⟨"a.example", none, some ⟨"ca-pem"⟩, [], emptyFlowControlState⟩)]
      "a.example" "443" (by decide) (by decide)).1,
   (sniVerifyOptions_spec [] "b.example" "443" (by decide) (by decide)).2.1 rfl⟩

/-- C1: for a handshake whose SNI hostname resolves to a registered
cluster with a loaded TLS config carrying a client-CA pool and
certificates, the wrapped callback returns a clone of the base config
with `Certificates`, `ClientCAs` and `ClientAuth = RequestClientCert`
overlaid (the client certificate is requested, never required, and
untouched fields such as `minVersion` are kept from the base); for a
hostname with no registered cluster the base config is returned
unchanged. -/
theorem wrapGetConfigForClient_sni_spec
    (reg : List (String × ClusterInfo)) (base : TLSConfig)
    (hello : ClientHelloInfo) (c : ClusterInfo) (t : TLSConfig)
    (hsn : hello.serverName ≠ "") :
    (lookupCluster reg hello.serverName = some c → c.tlsConfig = some t →
      t.clientCAs ≠ none → t.certificates ≠ [] →
      wrapGetConfigForClient reg (Except.ok base) hello =
        Except.ok
          { base with
            certificates := t.certificates
            clientCAs := t.clientCAs
            clientAuth := ClientAuthType.requestClientCert
            getCertificate := false
            getConfigForClient := false }) ∧
    (lookupCluster reg hello.serverName = none →
      wrapGetConfigForClient reg (Except.ok base) hello = Except.ok base) := by
  constructor
  · intro hc ht hca hcert
    unfold wrapGetConfigForClient
    simp [hsn, hc, ClusterInfo.loadTLSConfig, ht, Option.isSome_iff_ne_none, hca,
      gt_iff_lt, List.length_pos, hcert]
  · intro hm
    unfold wrapGetConfigForClient
    simp [hsn, hm]

/-- Witness for C1: a concrete registry entry for `a.example` overlays
its certificate and CA pool onto a base config (which keeps its
`minVersion`), and an unknown hostname gets the base config back. -/
theorem wrapGetConfigForClient_sni_witness :
    wrapGetConfigForClient
        [("a.example", ⟨"a.example",
          some ⟨[⟨"key-pem", "cert-pem"⟩], some "ca-pem",
            ClientAuthType.noClientCert, false, false, 0⟩,
          none, [], emptyFlowControlState⟩)]
        (Except.ok ⟨[], none, ClientAuthType.noClientCert, true, true, 771⟩)
        ⟨"a.example", "10.0.0.1:443"⟩ =
      Except.ok ⟨[⟨"key-pem", "cert-pem"⟩], some "ca-pem",
        ClientAuthType.requestClientCert, false, false, 771⟩ ∧
    wrapGetConfigForClient
        [("a.example", ⟨"a.example",
          some ⟨[⟨"key-pem", "cert-pem"⟩], some "ca-pem",
            ClientAuthType.noClientCert, false, false, 0⟩,
          none, [], emptyFlowControlState⟩)]
        (Except.ok ⟨[], none, ClientAuthType.noClientCert, true, true, 771⟩)
        ⟨"b.example", "10.0.0.1:443"⟩ =
      Except.ok ⟨[], none, ClientAuthType.noClientCert, true, true, 771⟩ :=
  ⟨(wrapGetConfigForClient_sni_spec
      [("a.example", ⟨"a.example",
        some ⟨[⟨"key-pem", "cert-pem"⟩], some "ca-pem",
          ClientAuthType.noClientCert, false, false, 0⟩,
        none, [], emptyFlowControlState⟩)]
      ⟨[], none, ClientAuthType.noClientCert, true, true, 771⟩
      ⟨"a.example", "10.0.0.1:443"⟩
      ⟨"a.example",
        some ⟨[⟨"key-pem", "cert-pem"⟩], some "ca-pem",
          ClientAuthType.noClientCert, false, false, 0⟩,
        none, [], emptyFlowControlState⟩
      ⟨[⟨"key-pem", "cert-pem"⟩], some "ca-pem",
        ClientAuthType.noClientCert, false, false, 0⟩
      (by decide)).1 rfl rfl (by decide) (by decide),
   (wrapGetConfigForClient_sni_spec
      [("a.example", ⟨"a.example",
        some ⟨[⟨"key-pem", "cert-pem"⟩], some "ca-pem",
          ClientAuthType.noClientCert, false, false, 0⟩,
        none, [], emptyFlowControlState⟩)]
      ⟨[], none, ClientAuthType.noClientCert, true, true, 771⟩
      ⟨"b.example", "10.0.0.1:443"⟩
      ⟨"b.example", none, none, [], emptyFlowControlState⟩
      ⟨[], none, ClientAuthType.noClientCert, false, false, 0⟩
      (by decide)).2 rfl⟩

/-- C5: with an empty `ServerName` the callback behaves as if the SNI
hostname were the host of the local connection address; and it never
fails closed: a local address that does not parse, a registry miss, or a
registered cluster without a loaded TLS config all yield the base config
with a nil error. -/
theorem wrapGetConfigForClient_fallback_spec
    (reg : List (String × ClusterInfo)) (base : TLSConfig)
    (addr h p sn : String) (c : ClusterInfo) :
    (splitHostPort addr = some (h, p) → h ≠ "" →
      wrapGetConfigForClient reg (Except.ok base) ⟨"", addr⟩ =
        wrapGetConfigForClient reg (Except.ok base) ⟨h, addr⟩) ∧
    (splitHostPort addr = none →
      wrapGetConfigForClient reg (Except.ok base) ⟨"", addr⟩ = Except.ok base) ∧
    (sn ≠ "" → lookupCluster reg sn = none →
      wrapGetConfigForClient reg (Except.ok base) ⟨sn, addr⟩ = Except.ok base) ∧
    (sn ≠ "" → lookupCluster reg sn = some c → c.tlsConfig = none →
      wrapGetConfigForClient reg (Except.ok base) ⟨sn, addr⟩ = Except.ok base) := by
  refine ⟨fun hsp hne => ?_, fun hsp => ?_, fun hne hm => ?_, fun hne hc ht => ?_⟩ <;>
    unfold wrapGetConfigForClient
  · simp [hsp, hne]
  · simp [hsp]
  · simp [hne, hm]
  · simp [hne, hc, ClusterInfo.loadTLSConfig, ht]

/-- Witness for C5: a concrete local address `10.0.0.1:443` supplies
the fallback hostname; an unparseable local address and an empty
registry each fail open to the base config. -/
theorem wrapGetConfigForClient_fallback_witness :
    wrapGetConfigForClient []
        (Except.ok ⟨[], none, ClientAuthType.noClientCert, true, true, 771⟩)
        ⟨"", "10.0.0.1:443"⟩ =
      wrapGetConfigForClient []
        (Except.ok ⟨[], none, ClientAuthType.noClientCert, true, true, 771⟩)
        ⟨"10.0.0.1", "10.0.0.1:443"⟩ ∧
    wrapGetConfigForClient []
        (Except.ok ⟨[], none, ClientAuthType.noClientCert, true, true, 771⟩)
        ⟨"", "pipe"⟩ =
      Except.ok ⟨[], none, ClientAuthType.noClientCert, true, true, 771⟩ ∧
    wrapGetConfigForClient
        [("a.example", ⟨"a.example", none, none, [], emptyFlowControlState⟩)]
        (Except.ok ⟨[], none, ClientAuthType.noClientCert, true, true, 771⟩)
        ⟨"a.example", "10.0.0.1:443"⟩ =
      Except.ok ⟨[], none, ClientAuthType.noClientCert, true, true, 771⟩ :=
  ⟨(wrapGetConfigForClient_fallback_spec []
      ⟨[], none, ClientAuthType.noClientCert, true, true, 771⟩
      "10.0.0.1:443" "10.0.0.1" "443" "x"
      ⟨"x", none, none, [], emptyFlowControlState⟩).1 (by decide) (by decide),
   (wrapGetConfigForClient_fallback_spec []
      ⟨[], none, ClientAuthType.noClientCert, true, true, 771⟩
      "pipe" "h" "p" "x"
      ⟨"x", none, none, [], emptyFlowControlState⟩).2.1 (by decide),
   (wrapGetConfigForClient_fallback_spec
      [("a.example", ⟨"a.example", none, none, [], emptyFlowControlState⟩)]
      ⟨[], none, ClientAuthType.noClientCert, true, true, 771⟩
      "10.0.0.1:443" "h" "p" "a.example"
      ⟨"a.example", none, none, [], emptyFlowControlState⟩).2.2.2
      (by decide) rfl rfl⟩

/-- Map read of the key just inserted at the front. -/
theorem lookupBy_cons_self {α : Type} (n : String) (a : α) (t : List (String × α)) :
    lookupBy ((n, a) :: t) n = some a := by
  simp [lookupBy, List.find?]

/-- Map read skipping a front entry with a different key. -/
theorem lookupBy_cons_ne {α : Type} {m n : String} (h : m ≠ n) (a : α)
    (t : List (String × α)) :
    lookupBy ((m, a) :: t) n = lookupBy t n := by
  simp [lookupBy, List.find?, h]

/-- A successful map read returns a stored value. -/
theorem lookupBy_mem {α : Type} (l : List (String × α)) (n : String) (a : α)
    (h : lookupBy l n = some a) : ∃ m, (m, a) ∈ l := by
  unfold lookupBy at h
  cases hf : l.find? fun p => p.1 = n with
  | none => rw [hf] at h; cases h
  | some q =>
    rw [hf] at h
    have hq : q ∈ l := List.mem_of_find?_eq_some hf
    refine ⟨q.1, ?_⟩
    have : q.2 = a := by simpa using h
    rw [← this]
    simpa using hq

/-- The identity counter never decreases across a limiter-map sync. -/
theorem syncLimiters_mono (old : List (String × FlowLimiter)) :
    ∀ (ns : List FlowControlSchema) (nid : Nat),
      nid ≤ (syncLimiters old nid ns).2
  | [], nid => Nat.le_refl nid
  | s :: rest, nid => by
    unfold syncLimiters
    cases h : lookupBy old s.name with
    | none =>
      simp only [h]
      exact Nat.le_trans (Nat.le_succ nid) (syncLimiters_mono old rest (nid + 1))
    | some l =>
      simp only [h]
      exact syncLimiters_mono old rest nid

/-- Every limiter in a synced map has its identity below the advanced
counter, provided the old map did. -/
theorem syncLimiters_id_bound (old : List (String × FlowLimiter)) :
    ∀ (ns : List FlowControlSchema) (nid : Nat),
      (∀ q ∈ old, q.2.id < nid) →
      ∀ q ∈ (syncLimiters old nid ns).1, q.2.id < (syncLimiters old nid ns).2
  | [], nid, _, q, hq => absurd hq (List.not_mem_nil q)
  | s :: rest, nid, hold, q, hq => by
    unfold syncLimiters at hq ⊢
    cases h : lookupBy old s.name with
    | none =>
      rw [h] at hq
      simp only [h]
      rcases List.mem_cons.mp hq with he | he
      · subst he
        exact Nat.lt_of_lt_of_le (Nat.lt_succ_self nid)
          (syncLimiters_mono old rest (nid + 1))
      · exact syncLimiters_id_bound old rest (nid + 1)
          (fun r hr => Nat.lt_succ_of_lt (hold r hr)) q he
    | some l =>
      rw [h] at hq
      simp only [h]
      rcases List.mem_cons.mp hq with he | he
      · subst he
        obtain ⟨m, hm⟩ := lookupBy_mem old s.name l h
        exact Nat.lt_of_lt_of_le (hold (m, l) hm) (syncLimiters_mono old rest nid)
      · exact syncLimiters_id_bound old rest nid hold q he

/-- A name carried by no new schema is absent from the synced map. -/
theorem syncLimiters_lookup_not_found (old : List (String × FlowLimiter)) (n : String) :
    ∀ (ns : List FlowControlSchema) (nid : Nat), (∀ s ∈ ns, s.name ≠ n) →
      lookupBy (syncLimiters old nid ns).1 n = none
  | [], _, _ => rfl
  | s :: rest, nid, hf => by
    have hs : s.name ≠ n := hf s (List.mem_cons_self s rest)
    have hrest : ∀ x ∈ rest, x.name ≠ n := fun x hx => hf x (List.mem_cons_of_mem s hx)
    unfold syncLimiters
    cases h : lookupBy old s.name with
    | none =>
      simp only [h]
      rw [lookupBy_cons_ne hs]
      exact syncLimiters_lookup_not_found old n rest (nid + 1) hrest
    | some l =>
      simp only [h]
      rw [lookupBy_cons_ne hs]
      exact syncLimiters_lookup_not_found old n rest nid hrest

/-- A name already carrying a limiter keeps that limiter, resized in
place to the first new schema of that name. -/
theorem syncLimiters_lookup_resize (old : List (String × FlowLimiter)) (n : String)
    (l : FlowLimiter) (hl : lookupBy old n = some l) :
    ∀ (ns : List FlowControlSchema) (nid : Nat) (s : FlowControlSchema),
      ns.find? (fun x => decide (x.name = n)) = some s →
      lookupBy (syncLimiters old nid ns).1 n = some { l with config := s.config }
  | [], _, s, hf => by cases hf
  | x :: rest, nid, s, hf => by
    by_cases hx : x.name = n
    · have hxs : x = s := by
        rw [List.find?_cons_of_pos _ (by simpa using hx)] at hf
        exact Option.some.inj hf
      subst hxs
      unfold syncLimiters
      simp only [hx, hl]
      exact lookupBy_cons_self n _ _
    · have hf' : rest.find? (fun x => decide (x.name = n)) = some s := by
        rw [List.find?_cons_of_neg _ (by simpa using hx)] at hf
        exact hf
      unfold syncLimiters
      cases h : lookupBy old x.name with
      | none =>
        simp only [h]
        rw [lookupBy_cons_ne hx]
        exact syncLimiters_lookup_resize old n l hl rest (nid + 1) s hf'
      | some l2 =>
        simp only [h]
        rw [lookupBy_cons_ne hx]
        exact syncLimiters_lookup_resize old n l hl rest nid s hf'

/-- A name with no current limiter receives a freshly created one, with
an identity at or above the incoming counter and no outstanding
permits. -/
theorem syncLimiters_lookup_fresh (old : List (String × FlowLimiter)) (n : String)
    (hl : lookupBy old n = none) :
    ∀ (ns : List FlowControlSchema) (nid : Nat) (s : FlowControlSchema),
      ns.find? (fun x => decide (x.name = n)) = some s →
      ∃ k, nid ≤ k ∧
        lookupBy (syncLimiters old nid ns).1 n =
          some { id := k, config := s.config, inflight := 0 }
  | [], _, s, hf => by cases hf
  | x :: rest, nid, s, hf => by
    by_cases hx : x.name = n
    · have hxs : x = s := by
        rw [List.find?_cons_of_pos _ (by simpa using hx)] at hf
        exact Option.some.inj hf
      subst hxs
      unfold syncLimiters
      simp only [hx, hl]
      exact ⟨nid, Nat.le_refl nid, lookupBy_cons_self n _ _⟩
    · have hf' : rest.find? (fun x => decide (x.name = n)) = some s := by
        rw [List.find?_cons_of_neg _ (by simpa using hx)] at hf
        exact hf
      unfold syncLimiters
      cases h : lookupBy old x.name with
      | none =>
        obtain ⟨k, hk, hlook⟩ := syncLimiters_lookup_fresh old n hl rest (nid + 1) s hf'
        simp only [h]
        refine ⟨k, Nat.le_trans (Nat.le_succ nid) hk, ?_⟩
        rw [lookupBy_cons_ne hx]
        exact hlook
      | some l2 =>
        obtain ⟨k, hk, hlook⟩ := syncLimiters_lookup_fresh old n hl rest nid s hf'
        simp only [h]
        refine ⟨k, hk, ?_⟩
        rw [lookupBy_cons_ne hx]
        exact hlook

/-- Syncing preserves the all-permits-drained state of the map. -/
theorem syncLimiters_inflight_zero (old : List (String × FlowLimiter))
    (hz : ∀ q ∈ old, q.2.inflight = 0) :
    ∀ (ns : List FlowControlSchema) (nid : Nat),
      ∀ q ∈ (syncLimiters old nid ns).1, q.2.inflight = 0
  | [], _, q, hq => absurd hq (List.not_mem_nil q)
  | s :: rest, nid, q, hq => by
    unfold syncLimiters at hq
    cases h : lookupBy old s.name with
    | none =>
      simp only [h] at hq
      rcases List.mem_cons.mp hq with he | he
      · subst he; rfl
      · exact syncLimiters_inflight_zero old hz rest (nid + 1) q he
    | some l =>
      simp only [h] at hq
      rcases List.mem_cons.mp hq with he | he
      · subst he
        obtain ⟨m, hm⟩ := lookupBy_mem old s.name l h
        exact hz (m, l) hm
      · exact syncLimiters_inflight_zero old hz rest nid q he

/-- With unique schema names, the first schema found under a member's
name is that member. -/
theorem find_name_of_nodup :
    ∀ (ns : List FlowControlSchema), (ns.map FlowControlSchema.name).Nodup →
      ∀ s ∈ ns, ns.find? (fun x => decide (x.name = s.name)) = some s
  | [], _, s, hs => absurd hs (List.not_mem_nil s)
  | x :: rest, hnd, s, hs => by
    rcases List.mem_cons.mp hs with he | he
    · subst he
      exact List.find?_cons_of_pos _ (by simp)
    · have hx : ¬ x.name = s.name := by
        intro e
        have h1 : x.name ∉ rest.map FlowControlSchema.name := (List.nodup_cons.mp hnd).1
        rw [e] at h1
        exact h1 (List.mem_map_of_mem _ he)
      rw [List.find?_cons_of_neg _ (by simpa using hx)]
      exact find_name_of_nodup rest (List.nodup_cons.mp hnd).2 s he

/-- When every limiter has drained, retiring removed limiters leaves
nothing behind. -/
theorem filter_drained (l : List (String × FlowLimiter))
    (hz : ∀ q ∈ l, q.2.inflight = 0) (pred : String × FlowLimiter → Bool) :
    ((l.filter pred).map fun p => p.2).filter (fun x => x.inflight ≠ 0) = [] := by
  apply List.filter_eq_nil_iff.mpr
  intro a ha
  obtain ⟨p, hp, hpa⟩ := List.mem_map.mp ha
  have hp' : p ∈ l := List.mem_of_mem_filter hp
  have hz' := hz p hp'
  subst hpa
  simp [hz']

/-- Syncing a fully drained flow-control state retires nothing. -/
theorem syncFlowControl_retired_drained (st : FlowControlState)
    (hz : ∀ q ∈ st.limiters, q.2.inflight = 0) (ns : List FlowControlSchema) :
    (syncFlowControl st ns).retired = st.retired := by
  unfold syncFlowControl
  simp only
  rw [filter_drained st.limiters hz _]
  exact List.append_nil st.retired

/-- C3: syncing flow control from `old` to `new` schemas (starting from
a fresh state and with no permits taken): every name only in `new` has
a newly created limiter whose identity differs from every limiter of
the old generation; every name only in `old` has no limiter remaining,
and nothing is left retired since all permits had drained; and every
name in both keeps the same limiter object — same identity, same
outstanding permits — resized in place to the new parameters. -/
theorem syncFlowControl_reconfigure_spec
    (old new : List FlowControlSchema)
    (hold : (old.map FlowControlSchema.name).Nodup)
    (hnew : (new.map FlowControlSchema.name).Nodup) :
    (∀ s ∈ new, (∀ x ∈ old, x.name ≠ s.name) →
      ∃ k, lookupBy (syncFlowControl (syncFlowControl emptyFlowControlState old) new).limiters
            s.name = some { id := k, config := s.config, inflight := 0 } ∧
          ∀ q ∈ (syncFlowControl emptyFlowControlState old).limiters, q.2.id ≠ k) ∧
    (∀ x ∈ old, (∀ s ∈ new, s.name ≠ x.name) →
      lookupBy (syncFlowControl (syncFlowControl emptyFlowControlState old) new).limiters
        x.name = none) ∧
    (syncFlowControl (syncFlowControl emptyFlowControlState old) new).retired = [] ∧
    (∀ x ∈ old, ∀ s ∈ new, x.name = s.name →
      ∃ l, lookupBy (syncFlowControl emptyFlowControlState old).limiters x.name = some l ∧
        lookupBy (syncFlowControl (syncFlowControl emptyFlowControlState old) new).limiters
          s.name = some { l with config := s.config }) := by
  have hz1 : ∀ q ∈ (syncFlowControl emptyFlowControlState old).limiters,
      q.2.inflight = 0 := by
    intro q hq
    exact syncLimiters_inflight_zero []
      (fun r hr => absurd hr (List.not_mem_nil r)) old 0 q hq
  have hid1 : ∀ q ∈ (syncFlowControl emptyFlowControlState old).limiters,
      q.2.id < (syncFlowControl emptyFlowControlState old).nextId := by
    intro q hq
    exact syncLimiters_id_bound [] old 0
      (fun r hr => absurd hr (List.not_mem_nil r)) q hq
  refine ⟨?_, ?_, ?_, ?_⟩
  · intro s hs hne
    have hl1 : lookupBy (syncFlowControl emptyFlowControlState old).limiters s.name = none :=
      syncLimiters_lookup_not_found [] s.name old 0 hne
    have hf := find_name_of_nodup new hnew s hs
    obtain ⟨k, hk, hlook⟩ := syncLimiters_lookup_fresh
      (syncFlowControl emptyFlowControlState old).limiters s.name hl1 new
      (syncFlowControl emptyFlowControlState old).nextId s hf
    exact ⟨k, hlook, fun q hq => Nat.ne_of_lt (Nat.lt_of_lt_of_le (hid1 q hq) hk)⟩
  · intro x hx hne
    exact syncLimiters_lookup_not_found
      (syncFlowControl emptyFlowControlState old).limiters x.name new
      (syncFlowControl emptyFlowControlState old).nextId hne
  · rw [syncFlowControl_retired_drained (syncFlowControl emptyFlowControlState old) hz1 new]
    rfl
  · intro x hx s hs he
    have hfold := find_name_of_nodup old hold x hx
    obtain ⟨k, hk0, hlx⟩ := syncLimiters_lookup_fresh [] x.name rfl old 0 x hfold
    refine ⟨{ id := k, config := x.config, inflight := 0 }, hlx, ?_⟩
    have hlx' : lookupBy (syncFlowControl emptyFlowControlState old).limiters s.name =
        some { id := k, config := x.config, inflight := 0 } := by
      rw [← he]; exact hlx
    have hfnew := find_name_of_nodup new hnew s hs
    exact syncLimiters_lookup_resize
      (syncFlowControl emptyFlowControlState old).limiters s.name
      { id := k, config := x.config, inflight := 0 } hlx' new
      (syncFlowControl emptyFlowControlState old).nextId s hfnew

/-- Witness for C3: reconfiguring `{max-inflight 10, tokenbucket 10/20}`
to `{exempt, max-inflight 20, tokenbucket 20/40}` keeps the resized
limiters' identities (ids 0 and 1), creates `exempt` fresh (id 2), and
retires nothing. -/
theorem syncFlowControl_reconfigure_witness :
    (syncFlowControl (syncFlowControl emptyFlowControlState
        [⟨"max-inflight", FlowControlSchemaConfiguration.maxRequestsInflight 10⟩,
         ⟨"tokenbucket", FlowControlSchemaConfiguration.tokenBucket 10 20⟩])
        [⟨"exempt", FlowControlSchemaConfiguration.exempt⟩,
         ⟨"max-inflight", FlowControlSchemaConfiguration.maxRequestsInflight 20⟩,
         ⟨"tokenbucket", FlowControlSchemaConfiguration.tokenBucket 20 40⟩]).retired = [] ∧
    lookupBy (syncFlowControl (syncFlowControl emptyFlowControlState
        [⟨"max-inflight", FlowControlSchemaConfiguration.maxRequestsInflight 10⟩,
         ⟨"tokenbucket", FlowControlSchemaConfiguration.tokenBucket 10 20⟩])
        [⟨"exempt", FlowControlSchemaConfiguration.exempt⟩,
         ⟨"max-inflight", FlowControlSchemaConfiguration.maxRequestsInflight 20⟩,
         ⟨"tokenbucket", FlowControlSchemaConfiguration.tokenBucket 20 40⟩]).limiters
      "max-inflight" =
      some { id := 0, config := FlowControlSchemaConfiguration.maxRequestsInflight 20,
             inflight := 0 } ∧
    lookupBy (syncFlowControl (syncFlowControl emptyFlowControlState
        [⟨"max-inflight", FlowControlSchemaConfiguration.maxRequestsInflight 10⟩,
         ⟨"tokenbucket", FlowControlSchemaConfiguration.tokenBucket 10 20⟩])
        [⟨"exempt", FlowControlSchemaConfiguration.exempt⟩,
         ⟨"max-inflight", FlowControlSchemaConfiguration.maxRequestsInflight 20⟩,
         ⟨"tokenbucket", FlowControlSchemaConfiguration.tokenBucket 20 40⟩]).limiters
      "exempt" =
      some { id := 2, config := FlowControlSchemaConfiguration.exempt, inflight := 0 } :=
  ⟨(syncFlowControl_reconfigure_spec
      [⟨"max-inflight", FlowControlSchemaConfiguration.maxRequestsInflight 10⟩,
       ⟨"tokenbucket", FlowControlSchemaConfiguration.tokenBucket 10 20⟩]
      [⟨"exempt", FlowControlSchemaConfiguration.exempt⟩,
       ⟨"max-inflight", FlowControlSchemaConfiguration.maxRequestsInflight 20⟩,
       ⟨"tokenbucket", FlowControlSchemaConfiguration.tokenBucket 20 40⟩]
      (by decide) (by decide)).2.2.1,
   by decide, by decide⟩

/-- Witness for C4: replaying the sync test, a cluster holding
`https://127.0.0.1:443` synced to the single server
`https://127.0.0.2:443` lists exactly that URL. -/
theorem syncEndpoints_mirror_witness :
    (ClusterInfo.syncEndpoints
        ⟨"testing.cluster", none, none,
          [("https://127.0.0.1:443",
            ⟨"testing.cluster", "https://127.0.0.1:443", true, "", ""⟩)],
          emptyFlowControlState⟩
        [⟨"https://127.0.0.2:443", false⟩]).allEndpoints =
      ["https://127.0.0.2:443"] :=
  (syncEndpoints_mirror_spec
    ⟨"testing.cluster", none, none,
      [("https://127.0.0.1:443",
        ⟨"testing.cluster", "https://127.0.0.1:443", true, "", ""⟩)],
      emptyFlowControlState⟩
    [⟨"https://127.0.0.2:443", false⟩] "https://127.0.0.2:443").1

/-- Witness for C6: a cluster with a loaded TLS config synced against
an all-empty SecureServing drops both the TLS config and the verify
options. -/
theorem syncSecureServing_empty_witness :
    (ClusterInfo.syncSecureServingConfigLocked
        ⟨"testing.cluster",
          some ⟨[⟨"key-pem", "cert-pem"⟩], some "ca-pem",
            ClientAuthType.noClientCert, false, false, 0⟩,
          some ⟨"ca-pem"⟩, [], emptyFlowControlState⟩
        ⟨"", "", ""⟩).loadTLSConfig = none :=
  (syncSecureServing_empty_spec
    ⟨"testing.cluster",
      some ⟨[⟨"key-pem", "cert-pem"⟩], some "ca-pem",
        ClientAuthType.noClientCert, false, false, 0⟩,
      some ⟨"ca-pem"⟩, [], emptyFlowControlState⟩).1

/-- Witness for C9: both log modes empty means logging is disabled. -/
theorem isLogEnabled_witness :
    isLogEnabled "" "" = false :=
  (isLogEnabled_spec "" "").2.2.2.1
